import Mathlib

/-
Verification development for the 152bot repository.

The definitions below are a shallow embedding of the lead/deal lifecycle code:
`src/bitrix_api.py` (status map, stage-name resolution, record creation),
`src/config.py` (the default stage tables and settings) and
`src/handlers/deals.py` (the reconciliation engine, pagination and the
confirmation handler wired into bot.py).  HTTP calls and the sqlite store are
modelled as explicit inputs/state: a CRM response is an `Option` value
(`none` = request error or an unusable result), and the user's slice of the
`leads` table is a `List Record` threaded through the functions that mutate it.

A few members called by handlers/deals.py are absent from src/ (the repository
is mid-rename from "deals" to "leads"): BitrixAPI.get_deal_status,
BitrixAPI.create_partner_deal, the Database deal CRUD and
config.DEALS_PAGE_SIZE.  Those are modelled from the spec (each such
definition's doc comment says so); everything else is translated from the
source.
-/

namespace Bot152

/-- Upper-casing, character by character (Python `str.upper` restricted to the
ASCII codes the CRM statuses use). -/
def strUpper (s : String) : String := String.mk (s.data.map Char.toUpper)

/-- Splitting on a separator character, as Python `str.split(sep)`: the empty
string yields `[""]`, and adjacent separators yield empty parts. -/
def splitOnCharAux (sep : Char) (acc : List Char) : List Char → List String
  | [] => [String.mk acc.reverse]
  | c :: rest =>
    if c = sep then String.mk acc.reverse :: splitOnCharAux sep [] rest
    else splitOnCharAux sep (c :: acc) rest

/-- Model of Python `s.split(sep)` for a one-character separator. -/
def pySplit (s : String) (sep : Char) : List String :=
  splitOnCharAux sep [] s.data

/-- Model of Python `str.strip()`: drop leading and trailing whitespace. -/
def strTrim (s : String) : String :=
  String.mk (((s.data.dropWhile Char.isWhitespace).reverse.dropWhile Char.isWhitespace).reverse)

/-- The first `n` characters of a string (Python `s[:n]`). -/
def strTake (s : String) (n : Nat) : String := String.mk (s.data.take n)

/-- The string without its first `n` characters (Python `s[n:]`). -/
def strDrop (s : String) (n : Nat) : String := String.mk (s.data.drop n)

/-- Whether the string starts with the given character. -/
def strStartsWithChar (s : String) (c : Char) : Bool :=
  match s.data with
  | [] => false
  | x :: _ => x == c

/-- Truthiness of an optional string, as Python `if s:` — `None` and the empty
string are falsy. -/
def truthyStr : Option String → Bool
  | some s => s != ""
  | none => false

/-- Python `a or b` for an optional string `a` and a string default `b`:
the default is taken when `a` is `None` or empty. -/
def pyOrStr (a : Option String) (b : String) : String :=
  match a with
  | some s => if s = "" then b else s
  | none => b

/-- Model of bitrix_api._normalize_stage_id: drop the pipeline code before the
first colon (Python `split(':', 1)[1]`) and upper-case the result; the empty
string is returned unchanged. -/
def _normalize_stage_id (stage_id : String) : String :=
  if stage_id = "" then stage_id
  else
    let normalized :=
      match pySplit stage_id ':' with
      | _ :: r :: rest => String.intercalate ":" (r :: rest)
      | _ => stage_id
    strUpper normalized

/-- The live status map: a Python dict modelled as an insertion list where the
latest insertion for a key wins. -/
abbrev StatusMap := List (String × String)

/-- Dict lookup over a `StatusMap`: the last inserted binding for the key. -/
def lookupStatus (m : StatusMap) (k : String) : Option String :=
  (m.reverse.find? (fun p => p.1 == k)).map Prod.snd

/-- One row of the `crm.status.list` response, with the fields that
get_lead_status_map reads (values are carried in their string form). -/
structure RawStatus where
  status_id : Option String
  name : Option String
  bitrix_id : Option String
  sort : Option String

/-- The redundant key set one response row contributes in get_lead_status_map:
the id, its upper-case, the prefix-stripped id, its upper-case, and (when not
None/empty/"null") the raw numeric id and sort value with their upper-cases.
The source collects them in a Python set; all keys of a row map to the same
name, so the set's iteration order is immaterial and a list is faithful. -/
def rowKeys (status_id normalized : String) (raw : RawStatus) : List String :=
  [status_id, strUpper status_id, normalized, strUpper normalized]
    ++ (match raw.bitrix_id with
        | some v => if v = "" ∨ v = "null" then [] else [strTrim v, strUpper (strTrim v)]
        | none => [])
    ++ (match raw.sort with
        | some v => if v = "" ∨ v = "null" then [] else [strTrim v, strUpper (strTrim v)]
        | none => [])

/-- The map construction of get_lead_status_map over the fetched rows: rows
without a usable STATUS_ID are skipped, the display name falls back to the id,
and every non-empty key of the row is bound to that name (later rows shadow
earlier ones, as in a Python dict). -/
def buildStatusMap (rows : List RawStatus) : StatusMap :=
  rows.foldl
    (fun acc raw =>
      let status_id := strTrim (pyOrStr raw.status_id "")
      if status_id = "" then acc
      else
        let name0 := strTrim (pyOrStr raw.name status_id)
        let name := if name0 = "" then status_id else name0
        let n := _normalize_stage_id status_id
        let normalized := if n = "" then status_id else n
        acc ++ ((rowKeys status_id normalized raw).filter (fun k => k != "")).map
          (fun k => (k, name)))
    []

/-- Model of BitrixAPI.get_lead_status_map as a state-passing function over the
in-process `_lead_status_cache`.  `fetch = none` models a failed
`crm.status.list` request or a response without a usable `result` field (the
source's `_make_request` catches every exception and returns an error dict, so
the getter itself never raises).  Returns the map handed to the caller together
with the new cache.  A falsy `result` leaves the freshly built map empty, and
that empty map is stored as the new cache. -/
def get_lead_status_map (cache : Option StatusMap) (force_refresh : Bool)
    (fetch : Option (List RawStatus)) : StatusMap × Option StatusMap :=
  match cache with
  | some m =>
    if force_refresh then
      let status_map := match fetch with | some rows => buildStatusMap rows | none => []
      (status_map, some status_map)
    else (m, some m)
  | none =>
    let status_map := match fetch with | some rows => buildStatusMap rows | none => []
    (status_map, some status_map)

/-- The slice of a `crm.lead.get` response row that the handlers consume. -/
structure LeadEntity where
  STATUS_ID : Option String

/-- The CRM endpoints used by the reconciliation code.  `get_deal_status` is
Modelled from the spec: BitrixAPI.get_deal_status is called by
handlers/deals.py but absent from src/bitrix_api.py; per spec section 6 it is
`getDealStatus(id) -> code?`, the deal-side status lookup. -/
structure Crm where
  lead_get : Int → Option LeadEntity
  get_deal_status : Int → Option String

/-- Model of BitrixAPI.get_lead_status: fetch the lead and return its
STATUS_ID (absent lead or absent field give `None`). -/
def get_lead_status (crm : Crm) (lead_id : Int) : Option String :=
  match crm.lead_get lead_id with
  | some lead => lead.STATUS_ID
  | none => none

/-- The configuration values (src/config.py defaults) the handlers consume.
`deals_page_size` is Modelled from the spec: config.DEALS_PAGE_SIZE is read by
handlers/deals.py but absent from src/config.py; spec section 4.6 specifies a
configurable page size with default 5. -/
structure Config where
  designer_funnel_stages : List (String × String)
  partner_funnel_stages : List (String × String)
  unknown_status_placeholder : String
  partner_initial_stage : Option String
  deals_page_size : Int
  manager_username : String

/-- The default configuration shipped in src/config.py. -/
def defaultConfig : Config :=
  { designer_funnel_stages :=
      [("NEW", "Новая сделка (новый номер)"),
       ("PROJECT_RECEIVED", "Получен проект на просчет"),
       ("ESTIMATE_DONE", "Просчет сделан"),
       ("MEASUREMENT", "Замер"),
       ("WON", "Сделка успех"),
       ("LOSE", "Сделка провал")]
  , partner_funnel_stages :=
      [("PROJECT_RECEIVED", "Получен проект на просчет"),
       ("ESTIMATE_DONE", "Просчет сделан"),
       ("MEASUREMENT", "Замер"),
       ("WON", "Сделка успех"),
       ("LOSE", "Сделка провал")]
  , unknown_status_placeholder := "Статус не отслеживается в боте"
  , partner_initial_stage := none
  , deals_page_size := 5
  , manager_username := "username_manager" }

/-- Model of BitrixAPI.get_stage_name.  The live map is an explicit argument:
the source reads it from get_lead_status_map, whose failure path already
yields a map, so the surrounding `except` arm (which would substitute an empty
map) is unreachable.  The four live keys are tried in order, skipping falsy
keys; on a miss the two static funnel tables are tried in role order, raw code
before normalized code in each; the raw code itself is the final fallback. -/
def get_stage_name (cfg : Config) (stage_map : StatusMap) (stage_id : String)
    (role : Option String) : String :=
  if stage_id = "" then stage_id
  else
    let normalized := _normalize_stage_id stage_id
    match [stage_id, strUpper stage_id, normalized, strUpper normalized].findSome?
        (fun k => if k = "" then none else lookupStatus stage_map k) with
    | some name => name
    | none =>
      let mappings :=
        if role == some "partner" then
          [cfg.partner_funnel_stages, cfg.designer_funnel_stages]
        else
          [cfg.designer_funnel_stages, cfg.partner_funnel_stages]
      match mappings.findSome? (fun mp =>
          match mp.lookup stage_id with
          | some v => some v
          | none => mp.lookup normalized) with
      | some name => name
      | none => stage_id

/-- Model of handlers/deals._normalize_status_code: prefix-strip at the first
colon and upper-case (empty input normalizes to the empty string). -/
def _normalize_status_code (status : String) : String :=
  if status = "" then ""
  else
    let value :=
      match pySplit status ':' with
      | _ :: r :: rest => String.intercalate ":" (r :: rest)
      | _ => status
    strUpper value

/-- Model of handlers/deals.DESIGNER_ALLOWED_STATUS_CODES: the designer funnel
table's keys (config.DESIGNER_ALLOWED_STATUSES), normalized.  The source holds
them in a set; list membership is equivalent. -/
def DESIGNER_ALLOWED_STATUS_CODES (cfg : Config) : List String :=
  cfg.designer_funnel_stages.map (fun p => _normalize_status_code p.1)

/-- Model of handlers/deals.PARTNER_ALLOWED_STATUS_CODES. -/
def PARTNER_ALLOWED_STATUS_CODES (cfg : Config) : List String :=
  cfg.partner_funnel_stages.map (fun p => _normalize_status_code p.1)

/-- Model of handlers/deals._allowed_status_codes.  The role reaching this
check can be a SQL NULL (`none`), which — like every non-"partner" value —
selects the designer list. -/
def _allowed_status_codes (cfg : Config) (role : Option String) : List String :=
  if role == some "partner" then PARTNER_ALLOWED_STATUS_CODES cfg
  else DESIGNER_ALLOWED_STATUS_CODES cfg

/-- Model of handlers/deals._is_status_allowed. -/
def _is_status_allowed (cfg : Config) (status : String) (role : Option String) : Bool :=
  (_allowed_status_codes cfg role).contains (_normalize_status_code status)

/-- A cached record row of the `leads` table (read through the spec's record
CRUD by handlers/deals.py).  `status_name` and `sync_status` are the keys the
sync step adds to the in-memory dict; they are not table columns, so rows read
from the store carry `none` there.  `owner_role` is nullable in the table. -/
structure Record where
  number : String
  bitrix_id : Int
  owner_telegram_id : Int
  client_full_name : String
  client_phone : String
  project_file_id : Option String
  project_file_name : Option String
  comment : Option String
  status : String
  entity_type : String
  owner_role : Option String
  created_date : String
  status_name : Option String := none
  sync_status : Option String := none
deriving DecidableEq, Repr

/-- A placeholder row used as a `headD` default in concrete instances. -/
def blankRecord : Record :=
  { number := "", bitrix_id := 0, owner_telegram_id := 0, client_full_name := ""
  , client_phone := "", project_file_id := none, project_file_name := none
  , comment := none, status := "", entity_type := "lead", owner_role := none
  , created_date := "" }

/-- The entity-dispatched status fetch at the top of _sync_deal_with_bitrix:
`deal.get("entity_type", "lead")` sends `"deal"` rows to the deal lookup and
every other entity type to the lead lookup. -/
def _fetch_record_status (crm : Crm) (deal : Record) : Option String :=
  if deal.entity_type = "deal" then crm.get_deal_status deal.bitrix_id
  else get_lead_status crm deal.bitrix_id

/-- The body of _sync_deal_with_bitrix after the status fetch: classification,
dict enrichment, and the status UPDATE the branch issues to the store,
returned as `(number, status)` pairs.  Rows from the store always carry the
`owner_role` key, so the Python `dict.get` fallback role is not taken; a falsy
fetched status (`None` or empty) is the not-found arm. -/
def _sync_deal_apply (cfg : Config) (stage_map : StatusMap) (deal : Record)
    (current_status : Option String) : Record × List (String × String) :=
  match current_status with
  | some cur =>
    if cur = "" then ({ deal with sync_status := some "not_found" }, [])
    else
      if _is_status_allowed cfg cur deal.owner_role then
        if cur ≠ deal.status then
          ({ deal with
              status := cur
              sync_status := some "updated"
              status_name := some (get_stage_name cfg stage_map cur deal.owner_role) },
           [(deal.number, cur)])
        else
          ({ deal with
              sync_status := some "valid"
              status_name := some (get_stage_name cfg stage_map cur deal.owner_role) }, [])
      else
        ({ deal with
            status := cur
            status_name := some cfg.unknown_status_placeholder
            sync_status := some "unsupported_status" }, [])
  | none => ({ deal with sync_status := some "not_found" }, [])

/-- Model of handlers/deals._sync_deal_with_bitrix: fetch the current CRM
status by entity type, then classify and enrich. -/
def _sync_deal_with_bitrix (cfg : Config) (stage_map : StatusMap) (crm : Crm)
    (deal : Record) (_fallback_role : String) : Record × List (String × String) :=
  _sync_deal_apply cfg stage_map deal (_fetch_record_status crm deal)

/-- Modelled from the spec: the local store's `updateRecordStatus`
(Database.update_deal_status is called by handlers/deals.py but absent from
src/database.py; src's Database.update_lead_status performs the same UPDATE by
number on the same — renamed — table). -/
def update_record_status (db : List Record) (number status : String) : List Record :=
  db.map (fun r => if r.number = number then { r with status := status } else r)

/-- Modelled from the spec: the local store's `deleteRecord`
(Database.delete_deal is absent from src/database.py; src's
Database.delete_lead performs the same DELETE by number). -/
def delete_record (db : List Record) (number : String) : List Record :=
  db.filter (fun r => !(r.number == number))

/-- The per-record sync results of _sync_deals_for_user's loop, in store
order. -/
def sync_results (cfg : Config) (stage_map : StatusMap) (crm : Crm)
    (db : List Record) (role : String) : List (Record × List (String × String)) :=
  db.map (fun d => _sync_deal_with_bitrix cfg stage_map crm d role)

/-- The loop's `invalid` accumulator: the enriched records classified
not_found. -/
def sync_invalid (cfg : Config) (stage_map : StatusMap) (crm : Crm)
    (db : List Record) (role : String) : List Record :=
  ((sync_results cfg stage_map crm db role).filter
    (fun r => r.1.sync_status == some "not_found")).map Prod.fst

/-- The loop's `synced` accumulator: every enriched record not classified
not_found. -/
def sync_synced (cfg : Config) (stage_map : StatusMap) (crm : Crm)
    (db : List Record) (role : String) : List Record :=
  ((sync_results cfg stage_map crm db role).filter
    (fun r => !(r.1.sync_status == some "not_found"))).map Prod.fst

/-- The status UPDATEs issued during the loop, in loop order. -/
def sync_updates (cfg : Config) (stage_map : StatusMap) (crm : Crm)
    (db : List Record) (role : String) : List (String × String) :=
  (sync_results cfg stage_map crm db role).flatMap Prod.snd

/-- The user's store after the loop's status updates, before any deletion. -/
def sync_db1 (cfg : Config) (stage_map : StatusMap) (crm : Crm)
    (db : List Record) (role : String) : List Record :=
  (sync_updates cfg stage_map crm db role).foldl
    (fun acc u => update_record_status acc u.1 u.2) db

/-- The user's store after one _sync_deals_for_user call: the loop's status
updates applied in order, then — when `drop_missing` and some record was
invalid — the per-number deletions. -/
def sync_db_after (cfg : Config) (stage_map : StatusMap) (crm : Crm)
    (db : List Record) (role : String) (drop_missing : Bool) : List Record :=
  if drop_missing && !(sync_invalid cfg stage_map crm db role).isEmpty then
    (sync_invalid cfg stage_map crm db role).foldl
      (fun acc r => delete_record acc r.number) (sync_db1 cfg stage_map crm db role)
  else sync_db1 cfg stage_map crm db role

/-- Model of handlers/deals._sync_deals_for_user over the user's rows,
returning (synced, invalid, store afterwards).  The store is read once up
front; the per-record status updates run during the loop and the deletions
after it. -/
def _sync_deals_for_user (cfg : Config) (stage_map : StatusMap) (crm : Crm)
    (db : List Record) (role : String) (drop_missing : Bool) :
    List Record × List Record × List Record :=
  (sync_synced cfg stage_map crm db role,
   sync_invalid cfg stage_map crm db role,
   sync_db_after cfg stage_map crm db role drop_missing)

/-- Model of handlers/deals.PAGE_SIZE: `max(config.DEALS_PAGE_SIZE, 1)`. -/
def page_size (cfg : Config) : Nat := (max cfg.deals_page_size 1).toNat

/-- The page count computed by _render_deals_page:
`max(math.ceil(count / PAGE_SIZE), 1)` (the ceiling of a nonnegative integer
division, with at least one page). -/
def total_pages_of (count ps : Nat) : Nat := max ((count + ps - 1) / ps) 1

/-- The page clamp of _render_deals_page:
`max(0, min(page, total_pages - 1))`. -/
def _clamped_page (count ps : Nat) (page : Int) : Int :=
  max 0 (min page ((total_pages_of count ps : Int) - 1))

/-- An inline keyboard button (text plus round-trip callback token). -/
structure Button where
  text : String
  callback_data : String
deriving DecidableEq, Repr

/-- Model of handlers/deals._build_pagination_keyboard: `none` for a single
page, otherwise an optional back button, the current-page indicator carrying
the `noop` token, and an optional forward button; callback tokens are
`"deals:{role}:{page}"`. -/
def _build_pagination_keyboard (ns role : String) (page : Int) (total_pages : Nat) :
    Option (List Button) :=
  if total_pages ≤ 1 then none
  else
    let back := ns ++ ":" ++ role ++ ":" ++ toString (page - 1)
    let fwd := ns ++ ":" ++ role ++ ":" ++ toString (page + 1)
    let noopData := ns ++ ":" ++ role ++ ":noop"
    let indicator := toString (page + 1) ++ "/" ++ toString total_pages
    some ((if page > 0 then [Button.mk "⬅️ Назад" back] else [])
      ++ [Button.mk indicator noopData]
      ++ (if page < (total_pages : Int) - 1 then [Button.mk "➡️ Далее" fwd] else []))

/-- The 30-dash separator rendered between entries (`"─" * 30`). -/
def sep_line : String := String.mk (List.replicate 30 '─')

/-- Model of handlers/deals._format_deal_entry: the lines rendered for one
record, with the icon keyed by sync status, the placeholder for a falsy
status name, the extra info line on `unsupported_status`, and the date cut to
its first ten characters. -/
def _format_deal_entry (cfg : Config) (deal : Record) : String :=
  let status_name := pyOrStr deal.status_name cfg.unknown_status_placeholder
  let sync_status := deal.sync_status.getD "valid"
  let status_icon :=
    if sync_status = "updated" then "🆕"
    else if sync_status = "unsupported_status" then "⚠️"
    else "📊"
  let lines :=
    ["📌 Сделка #" ++ deal.number, "👤 Клиент: " ++ deal.client_full_name]
      ++ (match deal.project_file_name with
          | some f => if f = "" then [] else ["📄 Файл: " ++ f]
          | none => [])
      ++ [status_icon ++ " Статус: " ++ status_name]
      ++ (if sync_status = "unsupported_status" then
            ["ℹ️ " ++ cfg.unknown_status_placeholder]
          else [])
      ++ ["📅 Дата: " ++ strTake deal.created_date 10]
  String.intercalate "\n" lines

/-- The rendering of _render_deals_page once the clamped page index and page
count are known: the entry slice, the joined-and-stripped text, and the
pagination keyboard. -/
def _render_core (cfg : Config) (deals : List Record) (role : String)
    (page1 : Int) (total_pages : Nat) : String × Option (List Button) :=
  let ps := page_size cfg
  let start := (page1 * (ps : Int)).toNat
  let entries := (deals.drop start).take ps
  let lines := ["📋 Ваши сделки:", ""]
    ++ entries.flatMap (fun d => [_format_deal_entry cfg d, sep_line, ""])
  (strTrim (String.intercalate "\n" lines),
   _build_pagination_keyboard "deals" role page1 total_pages)

/-- Model of handlers/deals._render_deals_page: clamp the requested page into
range, then render that page. -/
def _render_deals_page (cfg : Config) (deals : List Record) (page : Int)
    (role : String) : String × Option (List Button) :=
  _render_core cfg deals role (_clamped_page deals.length (page_size cfg) page)
    (total_pages_of deals.length (page_size cfg))

/-- Validity of the digit body of a Python int literal, after the first
character: digits, or a single underscore squeezed between digits. -/
def intBodyValidAux (prev : Char) : List Char → Bool
  | [] => prev.isDigit
  | c :: rest => (c.isDigit || (c == '_' && prev.isDigit)) && intBodyValidAux c rest

/-- Validity of the digit body of a Python int literal: nonempty, starting
with a digit, with at most single underscores between digits. -/
def intBodyValid : List Char → Bool
  | [] => false
  | c :: rest => c.isDigit && intBodyValidAux c rest

/-- The value of a digit list, most significant first. -/
def digitsToNat (cs : List Char) : Nat :=
  cs.foldl (fun n c => 10 * n + (c.toNat - Char.toNat '0')) 0

/-- ASCII model of Python `int(str)` as used on the callback page token:
optional surrounding whitespace, an optional sign, then digits with optional
single underscore separators; anything else raises, modelled as `none`. -/
def pyStrToInt (s : String) : Option Int :=
  let t := strTrim s
  let sign : Int := if strStartsWithChar t '-' then -1 else 1
  let body := if strStartsWithChar t '-' ∨ strStartsWithChar t '+' then strDrop t 1 else t
  let cs := body.data
  if intBodyValid cs then
    some (sign * (digitsToNat (cs.filter (fun c => !(c == '_'))) : Int))
  else none

/-- The externally visible effect of a pagination callback: acknowledge only,
edit the message to the empty-list text, or edit it to a rendered page. -/
inductive PaginateEffect where
  | ackOnly
  | emptiedList
  | renderedPage (text : String) (keyboard : Option (List Button))
deriving DecidableEq, Repr

/-- The outcome of handlers/deals.paginate_deals: its message effect, the
user's record store afterwards, and whether a sync was performed at all. -/
structure PaginateResult where
  effect : PaginateEffect
  new_db : List Record
  ran_sync : Bool
deriving DecidableEq, Repr

/-- Model of handlers/deals.paginate_deals: split the callback data on `":"`;
with anything other than exactly three parts, with the `noop` token, or with a
third part that `int()` rejects, only acknowledge; otherwise sync without
dropping missing records and either report an empty list or render the
requested page. -/
def paginate_deals (cfg : Config) (stage_map : StatusMap) (crm : Crm)
    (db : List Record) (data : String) : PaginateResult :=
  let parts := pySplit data ':'
  if parts.length = 3 then
    let role := parts.getD 1 ""
    let target := parts.getD 2 ""
    if target = "noop" then { effect := .ackOnly, new_db := db, ran_sync := false }
    else
      match pyStrToInt target with
      | none => { effect := .ackOnly, new_db := db, ran_sync := false }
      | some page =>
        let res := _sync_deals_for_user cfg stage_map crm db role false
        if res.1.isEmpty then
          { effect := .emptiedList, new_db := res.2.2, ran_sync := true }
        else
          let rendered := _render_deals_page cfg res.1 page role
          { effect := .renderedPage rendered.1 rendered.2
          , new_db := res.2.2
          , ran_sync := true }
  else { effect := .ackOnly, new_db := db, ran_sync := false }

/-- The accumulated conversation payload of the deal-creation flow at the
confirmation step (`await state.get_data()`). -/
structure StateData where
  owner_role : Option String
  client_name : Option String
  client_phone : Option String
  project_file_id : Option String
  project_file_name : Option String
  comment : Option String
deriving Repr

/-- The user's row as deal_confirmed reads it. -/
structure UserRow where
  full_name : Option String
  bitrix_id : Option Int
  role : Option String
deriving Repr

/-- ASCII model of Python `str.title()`, applied to unknown role keys for
display. -/
def pyTitleAux : Bool → List Char → List Char
  | _, [] => []
  | prevAlpha, c :: rest =>
    if c.isAlpha then
      (if prevAlpha then c.toLower else c.toUpper) :: pyTitleAux true rest
    else c :: pyTitleAux false rest

/-- ASCII model of Python `str.title()`. -/
def pyTitle (s : String) : String := String.mk (pyTitleAux false s.data)

/-- Model of `config.USER_ROLES.get(role, role.title())`. -/
def user_role_title (role : String) : String :=
  if role = "designer" then "Дизайнер"
  else if role = "partner" then "Партнер"
  else pyTitle role

/-- The `deal_data` payload built by deal_confirmed (the fields the claims
observe; the chat-side file download and the HTTP request marshalling are
outbound I/O that no claim observes).  `status_id` exists only in the leads
variant of the payload and is never set here. -/
structure DealData where
  designer_name : Option String
  designer_bitrix_id : Option Int
  designer_role_key : String
  designer_role_title : String
  crm_agent_name : Option String
  client_full_name : Option String
  client_phone : Option String
  project_file_url : Option String
  project_file_name : Option String
  comment : Option String
  owner_role : String
  status_id : Option String
  stage_id : Option String
deriving DecidableEq, Repr

/-- The record handed back by a successful creation call:
`{id, number, status, entity_type}`. -/
structure CreatedRecord where
  id : Int
  number : String
  status : String
  entity_type : String
deriving DecidableEq, Repr

/-- Result-relevant core of BitrixAPI.create_lead: the initial status
resolution `status_id or stage_id or "NEW"` and the record handed back on a
successful `crm.lead.add` call.  `api_result = none` models a request error or
a falsy result.  The request-field marshalling (title, split client name,
phone list, base64 file upload) is outbound formatting no claim observes and
is not modelled. -/
def create_lead (d : DealData) (api_result : Option Int) : Option CreatedRecord :=
  let status_id := pyOrStr d.status_id (pyOrStr d.stage_id "NEW")
  match api_result with
  | some lead_id =>
    some { id := lead_id, number := toString lead_id, status := status_id
         , entity_type := "lead" }
  | none => none

/-- Modelled from the spec: BitrixAPI.create_partner_deal is called by
handlers/deals.py but absent from src/bitrix_api.py.  Per spec sections 4.5
and 6 it is `createPartnerDeal(fields) -> {id, number, status, entityType}?`:
a deal created in the partner pipeline whose initial stage is the payload's
role-specific stage, handing back the same record shape as create_lead. -/
def create_partner_deal (d : DealData) (api_result : Option Int) : Option CreatedRecord :=
  match api_result with
  | some deal_id =>
    some { id := deal_id, number := toString deal_id, status := d.stage_id.getD ""
         , entity_type := "deal" }
  | none => none

/-- The role-keyed creation call deal_confirmed can issue. -/
inductive CrmCall where
  | createLead (d : DealData)
  | createPartnerDeal (d : DealData)
deriving DecidableEq, Repr

/-- The message deal_confirmed leaves the user with. -/
inductive Reply where
  | successCreated (number : String) (status_name : String)
  | errorContactManager (manager : String)
deriving DecidableEq, Repr

/-- Everything deal_confirmed does besides mutating the store: the single
creation call it issues, the creation result, the row it added (if any), the
reply, and whether the conversation state was cleared. -/
structure ConfirmOutcome where
  call : CrmCall
  created : Option CreatedRecord
  added : Option Record
  reply : Reply
  state_cleared : Bool
deriving DecidableEq, Repr

/-- The role deal_confirmed resolves:
`data.get("owner_role", user.get("role", "designer") if user else "designer")`.
The flow entry (new_deal_start) always stores `owner_role`, so the fallback
chain is not observable in a live flow. -/
def confirmed_role (user : Option UserRow) (data : StateData) : String :=
  data.owner_role.getD
    (match user with
     | some u => u.role.getD "designer"
     | none => "designer")

/-- The `deal_data` payload constructed by deal_confirmed: user identity,
role titles, the collected client fields, and the partner-only initial
pipeline stage. -/
def deal_payload (cfg : Config) (user : UserRow) (data : StateData) : DealData :=
  let role := confirmed_role (some user) data
  { designer_name := user.full_name
  , designer_bitrix_id := user.bitrix_id
  , designer_role_key := role
  , designer_role_title := user_role_title role
  , crm_agent_name := user.full_name
  , client_full_name := data.client_name
  , client_phone := data.client_phone
  , project_file_url := data.project_file_id
  , project_file_name := data.project_file_name
  , comment := data.comment
  , owner_role := role
  , status_id := none
  , stage_id := if role = "partner" then cfg.partner_initial_stage else none }

/-- The role-keyed dispatch of deal_confirmed: partners go to the
partner-deal creation, everyone else to lead creation. -/
def deal_confirmed_call (cfg : Config) (user : UserRow) (data : StateData) : CrmCall :=
  if confirmed_role (some user) data = "partner" then
    .createPartnerDeal (deal_payload cfg user data)
  else
    .createLead (deal_payload cfg user data)

/-- Model of handlers/deals.deal_confirmed end to end: dispatch the role-keyed
creation call; on a usable result insert the LocalRecord and confirm with the
resolved stage name, on a null result reply with the manager contact and leave
the store untouched.  State is cleared on both branches and exactly one
creation call is issued (the `call` field).  `api_result` is the raw CRM
response to that one call (`none` = error or falsy result); `now` stands for
`datetime.now().isoformat()` in the inserted row.  The store insert is
Modelled from the spec: Database.add_deal is absent from src/database.py;
src's Database.add_lead performs the same INSERT on the renamed table.  The
handler is reachable only for registered users (new_deal_start gates the
flow), so the user row is taken as present. -/
def deal_confirmed (cfg : Config) (stage_map : StatusMap) (user : UserRow)
    (data : StateData) (telegram_id : Int) (api_result : Option Int)
    (now : String) (db : List Record) : List Record × ConfirmOutcome :=
  let role := confirmed_role (some user) data
  let call := deal_confirmed_call cfg user data
  let created :=
    match call with
    | .createPartnerDeal d => create_partner_deal d api_result
    | .createLead d => create_lead d api_result
  match created with
  | some rec =>
    let new_row : Record :=
      { number := rec.number
      , bitrix_id := rec.id
      , owner_telegram_id := telegram_id
      , client_full_name := data.client_name.getD ""
      , client_phone := data.client_phone.getD ""
      , project_file_id := data.project_file_id
      , project_file_name := data.project_file_name
      , comment := data.comment
      , status := rec.status
      , entity_type := rec.entity_type
      , owner_role := some role
      , created_date := now }
    let status_name := get_stage_name cfg stage_map rec.status (some role)
    (db ++ [new_row],
     { call := call, created := some rec, added := some new_row
     , reply := .successCreated rec.number status_name, state_cleared := true })
  | none =>
    (db,
     { call := call, created := none, added := none
     , reply := .errorContactManager cfg.manager_username, state_cleared := true })

/-- Normalization as the spec words it (section 4.2 step 2): the substring
after the first colon when one is present, upper-cased. -/
def specNormalize (rawCode : String) : String :=
  strUpper (match pySplit rawCode ':' with
    | _ :: r :: rest => String.intercalate ":" (r :: rest)
    | _ => rawCode)

/-- First hit of an ordered chain of lookup results. -/
def firstHit (cands : List (Option String)) : Option String := cands.findSome? id

/-- Modelled from the spec's words (spec section 4.2, the layered resolution
chain of claim C6), to be compared with the source's get_stage_name: try the
four live-map keys in order, then the two static tables in role order checking
the raw code before the normalized code in each, falling back to the raw
code. -/
def resolveStageNameSpec (cfg : Config) (stage_map : StatusMap) (rawCode : String)
    (role : Option String) : String :=
  if rawCode = "" then rawCode
  else
    let normalized := specNormalize rawCode
    let live := firstHit ([rawCode, strUpper rawCode, normalized, strUpper normalized].map
      (fun k => lookupStatus stage_map k))
    let tables :=
      if role == some "partner" then
        [cfg.partner_funnel_stages, cfg.designer_funnel_stages]
      else
        [cfg.designer_funnel_stages, cfg.partner_funnel_stages]
    let staticHit := firstHit (tables.flatMap (fun t => [t.lookup rawCode, t.lookup normalized]))
    match live with
    | some name => name
    | none =>
      match staticHit with
      | some name => name
      | none => rawCode

/-- The net effect on one stored row of a sequence of status UPDATEs. -/
def applyUpdates : List (String × String) → Record → Record
  | [], r => r
  | u :: us, r =>
    applyUpdates us (if r.number = u.1 then { r with status := u.2 } else r)

/-- Concrete fixture: a CRM whose lead lookup reports a stage outside the
designer allow-list. -/
def crmUnsupported : Crm :=
  { lead_get := fun _ => some { STATUS_ID := some "X_INT" }
  , get_deal_status := fun _ => none }

/-- Concrete fixture: a cached designer lead row with status `"NEW"`. -/
def recNew : Record :=
  { blankRecord with
      number := "10"
      bitrix_id := 42
      status := "NEW"
      entity_type := "lead"
      owner_role := some "designer" }

/-- Concrete fixture: a CRM whose lead lookup reports the allowed stage
`"WON"`. -/
def crmWon : Crm :=
  { lead_get := fun _ => some { STATUS_ID := some "WON" }
  , get_deal_status := fun _ => none }

/-- Concrete fixture: a CRM that cannot resolve any record. -/
def crmGone : Crm :=
  { lead_get := fun _ => none
  , get_deal_status := fun _ => none }

/-- Concrete fixture: a cached partner deal row. -/
def recDeal : Record :=
  { blankRecord with
      number := "77"
      bitrix_id := 9
      status := "NEW"
      entity_type := "deal"
      owner_role := some "partner" }

/-- Concrete fixtures for the dispatch claim: two CRMs agreeing on the deal
lookup but not on the lead lookup. -/
def crmDealAgreeA : Crm :=
  { lead_get := fun _ => some { STATUS_ID := some "A" }
  , get_deal_status := fun _ => some "WON" }

/-- Second CRM of the deal-lookup pair. -/
def crmDealAgreeB : Crm :=
  { lead_get := fun _ => none
  , get_deal_status := fun _ => some "WON" }

/-- Concrete fixtures for the dispatch claim: two CRMs agreeing on the lead
lookup but not on the deal lookup. -/
def crmLeadAgreeA : Crm :=
  { lead_get := fun _ => some { STATUS_ID := some "WON" }
  , get_deal_status := fun _ => some "B" }

/-- Second CRM of the lead-lookup pair. -/
def crmLeadAgreeB : Crm :=
  { lead_get := fun _ => some { STATUS_ID := some "WON" }
  , get_deal_status := fun _ => none }

/-- Concrete fixture: a registered partner user row. -/
def partnerUser : UserRow :=
  { full_name := some "Петров Петр", bitrix_id := some 7, role := some "partner" }

/-- Concrete fixture: confirmation-step state data for a partner flow. -/
def partnerStateData : StateData :=
  { owner_role := some "partner", client_name := some "Иванов Иван"
  , client_phone := some "9161234567", project_file_id := some "f1"
  , project_file_name := some "проект.pdf", comment := some "ок" }

/-- Concrete fixture: confirmation-step state data for a designer flow. -/
def designerStateData : StateData :=
  { owner_role := some "designer", client_name := some "Иванов Иван"
  , client_phone := some "9161234567", project_file_id := some "f1"
  , project_file_name := some "проект.pdf", comment := some "ок" }

/-- C1 — counterexample.  With a non-empty cached map and a forced refresh
whose fetch fails, the getter does not return the previously cached map (the
claim requires the previous cache in exactly this situation): it returns the
empty map, which also replaces the cache. -/
theorem c1_stale_cache_counterexample :
    (get_lead_status_map (some [("NEW", "Новая сделка")]) true none).1
        ≠ [("NEW", "Новая сделка")]
      ∧ (get_lead_status_map (some [("NEW", "Новая сделка")]) true none).1 = [] := by
  constructor
  · intro h
    exact absurd h (by decide)
  · rfl

/-- C1 — amended.  Whenever a fetch actually happens (no cache yet, or a
forced refresh) and it fails, get_lead_status_map returns the empty map and
stores that empty map as the new cache — it does not fall back to a previous
cache.  The call itself never raises: it is total and always hands the caller
a map. -/
theorem c1_fetch_failure_yields_empty_map (cache : Option StatusMap)
    (force_refresh : Bool) (h : cache = none ∨ force_refresh = true) :
    get_lead_status_map cache force_refresh none = ([], some []) := by
  rcases h with h | h
  · subst h; rfl
  · subst h
    cases cache with
    | none => rfl
    | some m => rfl

/-- C1 — witness for the amended theorem at a concrete cached map. -/
theorem c1_fetch_failure_yields_empty_map_witness :
    get_lead_status_map (some [("NEW", "Новая сделка")]) true none = ([], some []) :=
  c1_fetch_failure_yields_empty_map (some [("NEW", "Новая сделка")]) true (Or.inr rfl)

/-- C2 — counterexample.  A designer lead cached as `"NEW"` whose CRM status
comes back as the out-of-funnel code `"X_INT"` is classified
unsupported_status and displayed with the placeholder, but the sync issues no
store update: after the sync call the stored row still says `"NEW"`, not the
fetched `"X_INT"` the claim requires to be persisted. -/
theorem c2_no_persist_counterexample :
    (_sync_deal_with_bitrix defaultConfig [] crmUnsupported recNew "designer").1.sync_status
        = some "unsupported_status"
      ∧ (_sync_deal_with_bitrix defaultConfig [] crmUnsupported recNew "designer").2 = []
      ∧ (_sync_deals_for_user defaultConfig [] crmUnsupported [recNew] "designer" false).2.2.map
          Record.status = ["NEW"]
      ∧ ("NEW" : String) ≠ "X_INT" := by
  refine ⟨by decide, by decide, by decide, by decide⟩

/-- C2 — amended.  For a record whose fetched status is non-empty and outside
the owner role's normalized allow-list, the sync writes the raw status only to
the in-memory record (the returned entry), displays the placeholder as the
status name, classifies the record unsupported_status — and issues no update
to the stored record, whose status field keeps its previous value. -/
theorem c2_unsupported_status_behavior (cfg : Config) (m : StatusMap) (crm : Crm)
    (rec : Record) (fb : String) (cur : String)
    (hf : _fetch_record_status crm rec = some cur) (hne : cur ≠ "")
    (hal : _is_status_allowed cfg cur rec.owner_role = false) :
    _sync_deal_with_bitrix cfg m crm rec fb
      = ({ rec with
            status := cur
            status_name := some cfg.unknown_status_placeholder
            sync_status := some "unsupported_status" }, []) := by
  unfold _sync_deal_with_bitrix
  rw [hf]
  unfold _sync_deal_apply
  simp [hne, hal]

/-- C2 — witness for the amended theorem at the concrete fixture. -/
theorem c2_unsupported_status_behavior_witness :
    _sync_deal_with_bitrix defaultConfig [] crmUnsupported recNew "designer"
      = ({ recNew with
            status := "X_INT"
            status_name := some defaultConfig.unknown_status_placeholder
            sync_status := some "unsupported_status" }, []) :=
  c2_unsupported_status_behavior defaultConfig [] crmUnsupported recNew "designer"
    "X_INT" (by decide) (by decide) (by decide)

/-- C3 — confirmed.  The reconciliation engine fetches the current CRM status
through the lookup dispatched on the record's entity type: a `"deal"` record
is read through the deal-status lookup and a `"lead"` record through the
lead-status lookup; consequently the sync outcome of a `"deal"` record depends
only on the deal lookup (two CRMs agreeing there sync it identically), and
symmetrically for `"lead"` records and the lead lookup. -/
theorem c3_entity_dispatch (cfg : Config) (m : StatusMap) (rec : Record)
    (fb : String) (crm crm' : Crm) :
    (rec.entity_type = "deal" →
        _fetch_record_status crm rec = crm.get_deal_status rec.bitrix_id)
      ∧ (rec.entity_type = "lead" →
          _fetch_record_status crm rec = get_lead_status crm rec.bitrix_id)
      ∧ (rec.entity_type = "deal" →
          crm.get_deal_status rec.bitrix_id = crm'.get_deal_status rec.bitrix_id →
          _sync_deal_with_bitrix cfg m crm rec fb = _sync_deal_with_bitrix cfg m crm' rec fb)
      ∧ (rec.entity_type = "lead" →
          crm.lead_get rec.bitrix_id = crm'.lead_get rec.bitrix_id →
          _sync_deal_with_bitrix cfg m crm rec fb = _sync_deal_with_bitrix cfg m crm' rec fb) := by
  refine ⟨?_, ?_, ?_, ?_⟩
  · intro h; simp [_fetch_record_status, h]
  · intro h; simp [_fetch_record_status, h]
  · intro h1 h2
    unfold _sync_deal_with_bitrix
    simp [_fetch_record_status, h1, h2]
  · intro h1 h2
    unfold _sync_deal_with_bitrix
    simp [_fetch_record_status, h1, get_lead_status, h2]

/-- C3 — witness: a deal record syncs identically under two CRMs agreeing on
the deal lookup, and a lead record under two CRMs agreeing on the lead
lookup. -/
theorem c3_entity_dispatch_witness :
    _sync_deal_with_bitrix defaultConfig [] crmDealAgreeA recDeal "designer"
        = _sync_deal_with_bitrix defaultConfig [] crmDealAgreeB recDeal "designer"
      ∧ _sync_deal_with_bitrix defaultConfig [] crmLeadAgreeA recNew "designer"
        = _sync_deal_with_bitrix defaultConfig [] crmLeadAgreeB recNew "designer" :=
  ⟨(c3_entity_dispatch defaultConfig [] recDeal "designer" crmDealAgreeA crmDealAgreeB).2.2.1
      rfl rfl,
   (c3_entity_dispatch defaultConfig [] recNew "designer" crmLeadAgreeA crmLeadAgreeB).2.2.2
      rfl rfl⟩

/-- C4 — confirmed.  The confirmed submission is keyed by role: a designer
role dispatches the lead-creation call, a partner role dispatches the
partner-deal creation call whose payload carries the partner-specific initial
pipeline stage, and the created record of that call has exactly that stage as
its initial status. -/
theorem c4_role_keyed_creation (cfg : Config) (user : UserRow) (data : StateData) :
    (confirmed_role (some user) data = "designer" →
        deal_confirmed_call cfg user data = .createLead (deal_payload cfg user data))
      ∧ (confirmed_role (some user) data = "partner" →
          deal_confirmed_call cfg user data = .createPartnerDeal (deal_payload cfg user data)
            ∧ (deal_payload cfg user data).stage_id = cfg.partner_initial_stage
            ∧ ∀ i : Int,
                create_partner_deal (deal_payload cfg user data) (some i)
                  = some { id := i, number := toString i
                         , status := cfg.partner_initial_stage.getD ""
                         , entity_type := "deal" }) := by
  constructor
  · intro h
    unfold deal_confirmed_call
    rw [if_neg (by rw [h]; decide)]
  · intro h
    have hstage : (deal_payload cfg user data).stage_id = cfg.partner_initial_stage := by
      unfold deal_payload
      simp [h]
    refine ⟨?_, hstage, ?_⟩
    · unfold deal_confirmed_call
      rw [if_pos h]
    · intro i
      unfold create_partner_deal
      rw [hstage]

/-- C4 — witness at a concrete designer flow and a concrete partner flow. -/
theorem c4_role_keyed_creation_witness :
    deal_confirmed_call defaultConfig partnerUser designerStateData
        = .createLead (deal_payload defaultConfig partnerUser designerStateData)
      ∧ deal_confirmed_call defaultConfig partnerUser partnerStateData
        = .createPartnerDeal (deal_payload defaultConfig partnerUser partnerStateData)
      ∧ (deal_payload defaultConfig partnerUser partnerStateData).stage_id
        = defaultConfig.partner_initial_stage :=
  ⟨(c4_role_keyed_creation defaultConfig partnerUser designerStateData).1 rfl,
   ((c4_role_keyed_creation defaultConfig partnerUser partnerStateData).2 rfl).1,
   ((c4_role_keyed_creation defaultConfig partnerUser partnerStateData).2 rfl).2.1⟩

/-- C8 — confirmed.  When the CRM creation call yields no usable result, the
confirmation handler leaves the record store unchanged, writes no LocalRecord,
replies with the terminal error message carrying the manager contact, clears
the conversation state, and issues exactly the one creation call recorded in
the outcome — no retry. -/
theorem c8_creation_failure (cfg : Config) (m : StatusMap) (user : UserRow)
    (data : StateData) (tid : Int) (now : String) (db : List Record) :
    deal_confirmed cfg m user data tid none now db
      = (db,
         { call := deal_confirmed_call cfg user data, created := none, added := none
         , reply := .errorContactManager cfg.manager_username, state_cleared := true }) := by
  unfold deal_confirmed
  cases hc : deal_confirmed_call cfg user data with
  | createLead d => simp [hc, create_lead]
  | createPartnerDeal d => simp [hc, create_partner_deal]

/-- C10 — confirmed.  A pagination callback whose data does not split into
exactly three colon-separated parts, or whose third part is neither `noop` nor
an int-parseable page, is acknowledged and nothing else: no sync runs, the
store is untouched and no message is edited. -/
theorem c10_malformed_callback (cfg : Config) (m : StatusMap) (crm : Crm)
    (db : List Record) (data : String)
    (h : (pySplit data ':').length ≠ 3
        ∨ (((pySplit data ':').getD 2 "" ≠ "noop")
            ∧ pyStrToInt ((pySplit data ':').getD 2 "") = none)) :
    paginate_deals cfg m crm db data
      = { effect := .ackOnly, new_db := db, ran_sync := false } := by
  unfold paginate_deals
  rcases h with h | ⟨h1, h2⟩
  · rw [if_neg h]
  · by_cases hl : (pySplit data ':').length = 3
    · rw [if_pos hl]
      simp only [h2, if_neg h1]
    · rw [if_neg hl]

/-- C10 — witness: a callback whose page token fails to parse is a pure
acknowledgement. -/
theorem c10_malformed_callback_witness :
    paginate_deals defaultConfig [] crmGone [recNew] "deals:designer:1x"
      = { effect := .ackOnly, new_db := [recNew], ran_sync := false } :=
  c10_malformed_callback defaultConfig [] crmGone [recNew] "deals:designer:1x"
    (Or.inr ⟨by decide, by decide⟩)

/-- An ordered chain of looked-up candidates has the same first hit whether
the lookups are mapped first or performed inside the scan. -/
theorem findSome_map_id {α β : Type} (l : List α) (f : α → Option β) :
    (l.map f).findSome? id = l.findSome? f := by
  induction l with
  | nil => rfl
  | cons a l ih =>
    cases h : f a <;> simp [List.findSome?_cons, h, ih]

/-- The flattened raw-then-normalized candidate chain over a table list has
the same first hit as scanning each table with the raw code before the
normalized code. -/
theorem firstHit_pairs (ts : List (List (String × String))) (a b : String) :
    List.findSome? id (ts.flatMap (fun t => [t.lookup a, t.lookup b]))
      = ts.findSome? (fun t =>
          match t.lookup a with
          | some v => some v
          | none => t.lookup b) := by
  induction ts with
  | nil => rfl
  | cons t ts ih =>
    cases h1 : List.lookup a t with
    | some v => simp [List.findSome?_cons, h1]
    | none =>
      cases h2 : List.lookup b t <;>
        simp [List.findSome?_cons, h1, h2, ← ih]

/-- The source's normalization and the spec's wording of it agree on every
non-empty code. -/
theorem normalize_eq_spec (s : String) (h : s ≠ "") :
    _normalize_stage_id s = specNormalize s := by
  simp only [_normalize_stage_id, specNormalize, if_neg h]

/-- C6 — confirmed.  For every raw code and role, the source's stage-name
resolver computes exactly the spec's layered chain: the four live-map keys in
order, then the two static funnel tables in role order (partner table first
iff the role is partner) checking the raw code before the normalized code in
each, with the raw code itself as the final fallback and the empty code
returned unchanged.  The only assumption is that the live map binds no empty
key — true of every map get_lead_status_map builds, since it filters falsy
keys out. -/
theorem c6_resolver_chain (cfg : Config) (m : StatusMap)
    (hm : lookupStatus m "" = none) (code : String) (role : Option String) :
    get_stage_name cfg m code role = resolveStageNameSpec cfg m code role := by
  by_cases hc : code = ""
  · subst hc; rfl
  · unfold get_stage_name resolveStageNameSpec
    rw [if_neg hc, if_neg hc, ← normalize_eq_spec code hc]
    have hguard : (fun k => if k = "" then none else lookupStatus m k)
        = fun k => lookupStatus m k := by
      funext k
      by_cases hk : k = ""
      · simp [hk, hm]
      · simp [hk]
    rw [hguard]
    simp only [firstHit_pairs, firstHit, findSome_map_id]

/-- C6 — witness: at a concrete live map, a prefixed code and the designer
role, the resolver and the spec's chain agree. -/
theorem c6_resolver_chain_witness :
    get_stage_name defaultConfig [("NEW", "Live Name")] "C1:NEW" (some "designer")
      = resolveStageNameSpec defaultConfig [("NEW", "Live Name")] "C1:NEW" (some "designer") :=
  c6_resolver_chain defaultConfig [("NEW", "Live Name")] (by decide) "C1:NEW" (some "designer")

/-- C9 — confirmed.  The rendered page index is the requested index clamped
into `[0, totalPages - 1]`, where the page count is the ceiling of
count / pageSize with a minimum of one page; in particular an index at or past
the page count renders the last valid page, and rendering any requested index
equals rendering its clamped index — never an error. -/
theorem c9_page_clamp (cfg : Config) (deals : List Record) (page : Int) (role : String) :
    0 ≤ _clamped_page deals.length (page_size cfg) page
      ∧ _clamped_page deals.length (page_size cfg) page
          < (total_pages_of deals.length (page_size cfg) : Int)
      ∧ 1 ≤ total_pages_of deals.length (page_size cfg)
      ∧ ((total_pages_of deals.length (page_size cfg) : Int) ≤ page →
          _clamped_page deals.length (page_size cfg) page
            = (total_pages_of deals.length (page_size cfg) : Int) - 1)
      ∧ _render_deals_page cfg deals page role
          = _render_core cfg deals role
              (_clamped_page deals.length (page_size cfg) page)
              (total_pages_of deals.length (page_size cfg)) := by
  have htp : 1 ≤ total_pages_of deals.length (page_size cfg) :=
    Nat.le_max_right _ 1
  have htpz : (0 : Int) ≤ (total_pages_of deals.length (page_size cfg) : Int) - 1 := by
    have : (1 : Int) ≤ (total_pages_of deals.length (page_size cfg) : Int) := by
      exact_mod_cast htp
    omega
  have hle : _clamped_page deals.length (page_size cfg) page
      ≤ (total_pages_of deals.length (page_size cfg) : Int) - 1 := by
    unfold _clamped_page
    exact max_le htpz (min_le_right _ _)
  refine ⟨le_max_left 0 _, by omega, htp, ?_, rfl⟩
  intro hpage
  unfold _clamped_page
  rw [min_eq_right (by omega), max_eq_right htpz]

/-- C9 — witness: page 99 of an eight-record, five-per-page set (two pages)
clamps to the last valid page. -/
theorem c9_page_clamp_witness :
    _clamped_page (List.replicate 8 blankRecord).length (page_size defaultConfig) 99
      = (total_pages_of (List.replicate 8 blankRecord).length (page_size defaultConfig) : Int)
          - 1 :=
  (c9_page_clamp defaultConfig (List.replicate 8 blankRecord) 99 "designer").2.2.2.1
    (by decide)

/-- Membership in the fold of per-number deletions implies membership in the
starting store. -/
theorem mem_foldl_delete_sub (xs : List Record) (acc : List Record) (r : Record)
    (h : r ∈ xs.foldl (fun a x => delete_record a x.number) acc) : r ∈ acc := by
  induction xs generalizing acc with
  | nil => exact h
  | cons x xs ih =>
    have hr := ih (delete_record acc x.number) h
    exact (List.mem_filter.mp hr).1

/-- After the deletion fold, no surviving row carries the number of any
deleted record. -/
theorem number_removed (xs : List Record) :
    ∀ acc : List Record, ∀ x ∈ xs,
      ∀ r ∈ xs.foldl (fun a y => delete_record a y.number) acc,
        (r.number == x.number) = false := by
  induction xs with
  | nil =>
    intro acc x hx
    exact absurd hx (List.not_mem_nil x)
  | cons y ys ih =>
    intro acc x hx r hr
    rcases List.mem_cons.mp hx with rfl | hx'
    · have hrr := mem_foldl_delete_sub ys (delete_record acc x.number) r hr
      have hflt := (List.mem_filter.mp hrr).2
      simpa using hflt
    · exact ih (delete_record acc y.number) x hx' r hr

/-- A record of the user's store whose sync came out not_found contributes its
enriched copy to the invalid output. -/
theorem mem_invalid_of (cfg : Config) (m : StatusMap) (crm : Crm) (db : List Record)
    (role : String) (drop : Bool) (rec : Record) (hmem : rec ∈ db)
    (hnf : (_sync_deal_with_bitrix cfg m crm rec role).1.sync_status = some "not_found") :
    (_sync_deal_with_bitrix cfg m crm rec role).1
      ∈ (_sync_deals_for_user cfg m crm db role drop).2.1 := by
  unfold _sync_deals_for_user sync_invalid sync_results
  refine List.mem_map.mpr ⟨_sync_deal_with_bitrix cfg m crm rec role, ?_, rfl⟩
  refine List.mem_filter.mpr ⟨List.mem_map_of_mem _ hmem, ?_⟩
  rw [hnf]
  rfl

/-- C7 — confirmed.  A cached record whose dispatched CRM status lookup
returns no status is classified not_found and shows up (enriched) in the
invalid output of the sync call; no record of the valid output is classified
not_found; and the sync call with dropMissing set leaves no row with that
record's number in the store. -/
theorem c7_not_found_selfheal (cfg : Config) (m : StatusMap) (crm : Crm)
    (db : List Record) (role : String) (drop : Bool) (rec : Record)
    (hmem : rec ∈ db) (hf : _fetch_record_status crm rec = none) :
    (_sync_deal_with_bitrix cfg m crm rec role).1.sync_status = some "not_found"
      ∧ { rec with sync_status := some "not_found" }
          ∈ (_sync_deals_for_user cfg m crm db role drop).2.1
      ∧ ((_sync_deals_for_user cfg m crm db role drop).1.all
          (fun r => !(r.sync_status == some "not_found")) = true)
      ∧ ((_sync_deals_for_user cfg m crm db role true).2.2.all
          (fun r => !(r.number == rec.number)) = true) := by
  have h1 : _sync_deal_with_bitrix cfg m crm rec role
      = ({ rec with sync_status := some "not_found" }, []) := by
    unfold _sync_deal_with_bitrix
    rw [hf]
    rfl
  have hnf : (_sync_deal_with_bitrix cfg m crm rec role).1.sync_status
      = some "not_found" := by rw [h1]
  refine ⟨hnf, ?_, ?_, ?_⟩
  · have := mem_invalid_of cfg m crm db role drop rec hmem hnf
    rwa [h1] at this
  · rw [List.all_eq_true]
    intro r hr
    unfold _sync_deals_for_user sync_synced at hr
    rcases List.mem_map.mp hr with ⟨pr, hpr, rfl⟩
    exact (List.mem_filter.mp hpr).2
  · rw [List.all_eq_true]
    intro r hr
    have hinv := mem_invalid_of cfg m crm db role true rec hmem hnf
    have hinvne : (_sync_deals_for_user cfg m crm db role true).2.1 ≠ [] :=
      List.ne_nil_of_mem hinv
    unfold _sync_deals_for_user at hr hinv hinvne
    unfold sync_db_after at hr
    rw [if_pos (by simpa [List.isEmpty_iff] using hinvne)] at hr
    have hnum := number_removed _ _ _ hinv r hr
    have hnn : (_sync_deal_with_bitrix cfg m crm rec role).1.number = rec.number := by
      rw [h1]
    rw [hnn] at hnum
    simpa using hnum

/-- The status-update list a single record's sync issues is empty, or is the
one pair updating that record's own number to the fetched status — the latter
exactly when the fetched status is truthy, allowed for the record's role and
different from the cached one. -/
theorem sync_upd_cases (cfg : Config) (m : StatusMap) (crm : Crm) (d : Record)
    (fb : String) :
    (_sync_deal_with_bitrix cfg m crm d fb).2 = []
      ∨ ∃ cur, (_sync_deal_with_bitrix cfg m crm d fb).2 = [(d.number, cur)]
          ∧ _fetch_record_status crm d = some cur ∧ cur ≠ ""
          ∧ _is_status_allowed cfg cur d.owner_role = true ∧ cur ≠ d.status := by
  unfold _sync_deal_with_bitrix
  cases hf : _fetch_record_status crm d with
  | none => exact Or.inl rfl
  | some cur =>
    by_cases hc : cur = ""
    · refine Or.inl ?_
      simp only [_sync_deal_apply]
      rw [if_pos hc]
    · by_cases hal : _is_status_allowed cfg cur d.owner_role = true
      · by_cases hne : cur = d.status
        · refine Or.inl ?_
          simp only [_sync_deal_apply]
          rw [if_neg hc, if_pos hal, if_neg (fun hx => hx hne)]
        · refine Or.inr ⟨cur, ?_, rfl, hc, hal, hne⟩
          simp only [_sync_deal_apply]
          rw [if_neg hc, if_pos hal, if_pos hne]
      · refine Or.inl ?_
        simp only [_sync_deal_apply]
        rw [if_neg hc, if_neg hal]

/-- Every status update a record's sync issues is keyed by that record's own
number. -/
theorem sync_snd_key (cfg : Config) (m : StatusMap) (crm : Crm) (d : Record)
    (fb : String) :
    ∀ p ∈ (_sync_deal_with_bitrix cfg m crm d fb).2, p.1 = d.number := by
  intro p hp
  rcases sync_upd_cases cfg m crm d fb with h | ⟨cur, h, _⟩
  · rw [h] at hp
    exact absurd hp (List.not_mem_nil p)
  · rw [h] at hp
    rcases List.mem_singleton.mp hp with rfl
    rfl

/-- A record's sync that issues no status update, yet fetched a truthy allowed
status, fetched exactly the cached status. -/
theorem sync_noupd_status (cfg : Config) (m : StatusMap) (crm : Crm) (d : Record)
    (fb : String) (h : (_sync_deal_with_bitrix cfg m crm d fb).2 = [])
    (cur : String) (hf : _fetch_record_status crm d = some cur) (hc : cur ≠ "")
    (hal : _is_status_allowed cfg cur d.owner_role = true) : d.status = cur := by
  by_cases hne : cur = d.status
  · exact hne.symm
  · exfalso
    unfold _sync_deal_with_bitrix at h
    rw [hf] at h
    simp [_sync_deal_apply, hc, hal, hne] at h

/-- Every update a record's sync issues carries some store record's number. -/
theorem updates_origin (cfg : Config) (m : StatusMap) (crm : Crm)
    (db : List Record) (role : String) :
    ∀ p ∈ sync_updates cfg m crm db role, ∃ x ∈ db, p.1 = x.number := by
  intro p hp
  unfold sync_updates sync_results at hp
  rcases List.mem_flatMap.mp hp with ⟨pr, hpr, hp2⟩
  rcases List.mem_map.mp hpr with ⟨x, hx, rfl⟩
  exact ⟨x, hx, sync_snd_key cfg m crm x role p hp2⟩

/-- Running the loop's sequence of per-number status UPDATEs over the store is
the same as transforming every row independently. -/
theorem foldl_update_eq_map (us : List (String × String)) (db : List Record) :
    us.foldl (fun acc u => update_record_status acc u.1 u.2) db
      = db.map (applyUpdates us) := by
  induction us generalizing db with
  | nil => simp [applyUpdates]
  | cons u us ih =>
    rw [List.foldl_cons, ih]
    unfold update_record_status
    rw [List.map_map]
    rfl

/-- Updates keyed by other numbers do not change a row: applying a sequence of
updates to a row is applying just those keyed by its number. -/
theorem applyUpdates_filter_key :
    ∀ (us : List (String × String)) (r : Record),
      applyUpdates us r = applyUpdates (us.filter (fun p => p.1 == r.number)) r := by
  intro us
  induction us with
  | nil => intro r; rfl
  | cons p ps ih =>
    intro r
    by_cases hm : p.1 = r.number
    · have hfil : (p :: ps).filter (fun q => q.1 == r.number)
          = p :: ps.filter (fun q => q.1 == r.number) := by
        simp [List.filter_cons, hm]
      rw [hfil]
      show applyUpdates ps (if r.number = p.1 then { r with status := p.2 } else r)
          = applyUpdates (ps.filter fun q => q.1 == r.number)
              (if r.number = p.1 then { r with status := p.2 } else r)
      have hnum : (if r.number = p.1 then { r with status := p.2 } else r).number
          = r.number := by
        split <;> rfl
      rw [ih (if r.number = p.1 then { r with status := p.2 } else r), hnum]
    · have hfil : (p :: ps).filter (fun q => q.1 == r.number)
          = ps.filter (fun q => q.1 == r.number) := by
        simp [List.filter_cons, hm]
      rw [hfil]
      show applyUpdates ps (if r.number = p.1 then { r with status := p.2 } else r)
          = applyUpdates (ps.filter fun q => q.1 == r.number) r
      rw [if_neg (fun h => hm h.symm)]
      exact ih r

/-- With unique record numbers, the loop's updates keyed by one record's
number are exactly the updates that record's own sync issued. -/
theorem sync_updates_filter_eq (cfg : Config) (m : StatusMap) (crm : Crm)
    (role : String) :
    ∀ db : List Record, (db.map Record.number).Nodup → ∀ r ∈ db,
      (sync_updates cfg m crm db role).filter (fun p => p.1 == r.number)
        = (_sync_deal_with_bitrix cfg m crm r role).2 := by
  intro db
  induction db with
  | nil =>
    intro _ r hr
    exact absurd hr (List.not_mem_nil r)
  | cons d ds ih =>
    intro hnd r hr
    rw [List.map_cons] at hnd
    have hnd' := List.nodup_cons.mp hnd
    have hcons : sync_updates cfg m crm (d :: ds) role
        = (_sync_deal_with_bitrix cfg m crm d role).2 ++ sync_updates cfg m crm ds role := by
      unfold sync_updates sync_results
      simp
    rw [hcons, List.filter_append]
    rcases List.mem_cons.mp hr with rfl | hr'
    · have h1 : ((_sync_deal_with_bitrix cfg m crm r role).2.filter
          (fun p => p.1 == r.number)) = (_sync_deal_with_bitrix cfg m crm r role).2 :=
        List.filter_eq_self.mpr (fun p hp => by
          have hk := sync_snd_key cfg m crm r role p hp
          simp [hk])
      have h2 : ((sync_updates cfg m crm ds role).filter (fun p => p.1 == r.number))
          = [] := by
        rw [List.filter_eq_nil_iff]
        intro p hp
        rcases updates_origin cfg m crm ds role p hp with ⟨x, hx, hpx⟩
        have hxne : x.number ≠ r.number :=
          fun hEq => hnd'.1 (hEq ▸ List.mem_map_of_mem Record.number hx)
        simp [hpx, hxne]
      rw [h1, h2, List.append_nil]
    · have h1 : ((_sync_deal_with_bitrix cfg m crm d role).2.filter
          (fun p => p.1 == r.number)) = [] := by
        rw [List.filter_eq_nil_iff]
        intro p hp
        have hk := sync_snd_key cfg m crm d role p hp
        have hdne : d.number ≠ r.number :=
          fun hEq => hnd'.1 (hEq ▸ List.mem_map_of_mem Record.number hr')
        simp [hk, hdne]
      rw [h1, List.nil_append]
      exact ih hnd'.2 r hr'

/-- After one sync call over a store with unique record numbers, every
surviving row whose dispatched CRM lookup yields a truthy status allowed for
its role already carries exactly that status. -/
theorem db_after_ready (cfg : Config) (m : StatusMap) (crm : Crm)
    (db : List Record) (role : String) (drop : Bool)
    (hnd : (db.map Record.number).Nodup) :
    ∀ r2 ∈ sync_db_after cfg m crm db role drop, ∀ cur,
      _fetch_record_status crm r2 = some cur → cur ≠ "" →
      _is_status_allowed cfg cur r2.owner_role = true → r2.status = cur := by
  intro r2 hr2 cur hf hc hal
  have hr1 : r2 ∈ sync_db1 cfg m crm db role := by
    unfold sync_db_after at hr2
    split at hr2
    · exact mem_foldl_delete_sub _ _ _ hr2
    · exact hr2
  have hmap : sync_db1 cfg m crm db role
      = db.map (applyUpdates (sync_updates cfg m crm db role)) :=
    foldl_update_eq_map _ _
  rw [hmap] at hr1
  rcases List.mem_map.mp hr1 with ⟨r, hrdb, rfl⟩
  have hred : applyUpdates (sync_updates cfg m crm db role) r
      = applyUpdates ((_sync_deal_with_bitrix cfg m crm r role).2) r := by
    rw [applyUpdates_filter_key, sync_updates_filter_eq cfg m crm role db hnd r hrdb]
  rw [hred] at hf hal ⊢
  rcases sync_upd_cases cfg m crm r role with hnil | ⟨cur0, hupd, hfr, hc0, hal0, hne0⟩
  · rw [hnil] at hf hal ⊢
    exact sync_noupd_status cfg m crm r role hnil cur hf hc hal
  · rw [hupd] at hf hal ⊢
    have hone : applyUpdates [(r.number, cur0)] r = { r with status := cur0 } := by
      show applyUpdates [] (if r.number = r.number then { r with status := cur0 } else r)
          = { r with status := cur0 }
      rw [if_pos rfl]
      rfl
    rw [hone] at hf ⊢
    have hfr2 : _fetch_record_status crm { r with status := cur0 }
        = _fetch_record_status crm r := rfl
    rw [hfr2, hfr] at hf
    exact Option.some.inj hf

/-- Every member of the valid output comes from a store row, enriched by its
own sync and not classified not_found. -/
theorem mem_synced (cfg : Config) (m : StatusMap) (crm : Crm) (db : List Record)
    (role : String) :
    ∀ x ∈ sync_synced cfg m crm db role, ∃ r ∈ db,
      x = (_sync_deal_with_bitrix cfg m crm r role).1
        ∧ ((_sync_deal_with_bitrix cfg m crm r role).1.sync_status
            == some "not_found") = false := by
  intro x hx
  unfold sync_synced sync_results at hx
  rcases List.mem_map.mp hx with ⟨pr, hpr, rfl⟩
  rcases List.mem_map.mp (List.mem_filter.mp hpr).1 with ⟨r, hr, rfl⟩
  have h2 := (List.mem_filter.mp hpr).2
  exact ⟨r, hr, rfl, by simpa using h2⟩

/-- C5 — counterexample.  A record whose CRM status is outside the role's
allow-list is classified unsupported_status — not valid — on the second of two
back-to-back sync calls with no intervening CRM change, so the claim's "valid
for every record" fails. -/
theorem c5_idempotence_counterexample :
    ((_sync_deals_for_user defaultConfig [] crmUnsupported
        ((_sync_deals_for_user defaultConfig [] crmUnsupported [recNew] "designer" true).2.2)
        "designer" true).1.map Record.sync_status = [some "unsupported_status"])
      ∧ (some "unsupported_status" : Option String) ≠ some "valid" := by
  exact ⟨by decide, by decide⟩

/-- C5 — amended.  Calling the per-user sync twice in succession with no
intervening change in the CRM-reported statuses (and unique record numbers,
which the store's UNIQUE column guarantees) classifies every record of the
second call's valid output as valid or unsupported_status — never updated: in
particular every record whose fetched status is in the role's allow-list is
valid the second time. -/
theorem c5_second_sync_stable (cfg : Config) (m : StatusMap) (crm : Crm)
    (db : List Record) (role : String) (d1 d2 : Bool)
    (hnd : (db.map Record.number).Nodup) :
    ((_sync_deals_for_user cfg m crm
        ((_sync_deals_for_user cfg m crm db role d1).2.2) role d2).1.all
      (fun r => r.sync_status == some "valid"
        || r.sync_status == some "unsupported_status")) = true := by
  rw [List.all_eq_true]
  intro x hx
  have hx' : x ∈ sync_synced cfg m crm
      ((_sync_deals_for_user cfg m crm db role d1).2.2) role := hx
  rcases mem_synced cfg m crm _ role x hx' with ⟨r2, hr2, rfl, hprp⟩
  have hr2' : r2 ∈ sync_db_after cfg m crm db role d1 := hr2
  cases hfetch : _fetch_record_status crm r2 with
  | none =>
    exfalso
    have hnf : (_sync_deal_with_bitrix cfg m crm r2 role).1.sync_status
        = some "not_found" := by
      unfold _sync_deal_with_bitrix
      rw [hfetch]
      rfl
    rw [hnf] at hprp
    simp at hprp
  | some cur =>
    by_cases hc : cur = ""
    · exfalso
      have hnf : (_sync_deal_with_bitrix cfg m crm r2 role).1.sync_status
          = some "not_found" := by
        unfold _sync_deal_with_bitrix
        rw [hfetch]
        simp only [_sync_deal_apply]
        rw [if_pos hc]
      rw [hnf] at hprp
      simp at hprp
    · by_cases hal : _is_status_allowed cfg cur r2.owner_role = true
      · have hst : r2.status = cur :=
          db_after_ready cfg m crm db role d1 hnd r2 hr2' cur hfetch hc hal
        have hv : (_sync_deal_with_bitrix cfg m crm r2 role).1.sync_status
            = some "valid" := by
          unfold _sync_deal_with_bitrix
          rw [hfetch]
          simp only [_sync_deal_apply]
          rw [if_neg hc, if_pos hal, if_neg (fun hx2 => hx2 hst.symm)]
        rw [hv]
        rfl
      · have hu : (_sync_deal_with_bitrix cfg m crm r2 role).1.sync_status
            = some "unsupported_status" := by
          unfold _sync_deal_with_bitrix
          rw [hfetch]
          simp only [_sync_deal_apply]
          rw [if_neg hc, if_neg hal]
        rw [hu]
        rfl

/-- C5 — witness: a record whose allowed CRM status differs from the cache is
updated by the first call and valid on the second. -/
theorem c5_second_sync_stable_witness :
    ((_sync_deals_for_user defaultConfig [] crmWon
        ((_sync_deals_for_user defaultConfig [] crmWon [recNew] "designer" true).2.2)
        "designer" true).1.all
      (fun r => r.sync_status == some "valid"
        || r.sync_status == some "unsupported_status")) = true :=
  c5_second_sync_stable defaultConfig [] crmWon [recNew] "designer" true true (by decide)

/-- C7 — witness: a concrete record the CRM no longer resolves is invalid,
absent from the valid output, and absent from the store after a dropping
sync. -/
theorem c7_not_found_selfheal_witness :
    (_sync_deal_with_bitrix defaultConfig [] crmGone recNew "designer").1.sync_status
        = some "not_found"
      ∧ { recNew with sync_status := some "not_found" }
          ∈ (_sync_deals_for_user defaultConfig [] crmGone [recNew] "designer" false).2.1
      ∧ ((_sync_deals_for_user defaultConfig [] crmGone [recNew] "designer" false).1.all
          (fun r => !(r.sync_status == some "not_found")) = true)
      ∧ ((_sync_deals_for_user defaultConfig [] crmGone [recNew] "designer" true).2.2.all
          (fun r => !(r.number == recNew.number)) = true) :=
  c7_not_found_selfheal defaultConfig [] crmGone [recNew] "designer" false recNew
    (by decide) (by decide)

end Bot152
